import Mathlib

/-!
# Verification of the napari Shapes layer engine

Shallow embedding of `napari/layers/shapes/shapes.py` (the Shapes layer:
slicing bookkeeping, editing-mode state machine, clipboard copy/paste,
z-index assignment, color-cycle resolution, and interaction-box algebra),
together with the parts of `napari/components/dims.py` it consumes.

Discrete layer state is embedded with exact types (`Int`, `Nat`, `Rat`,
lists); the interaction-box geometry, which the source computes in floating
point, is embedded over `ℝ` so that its algebraic properties can be stated
exactly.

Helper modules of the shapes package (`_shape_list.ShapeList`,
`_shapes_models`, `_shapes_constants`) are not part of the provided source
tree; where their behaviour matters it is modelled from the specification
and marked `Modelled from the spec:` in the doc comment.
-/

namespace NapariShapes

/-! ## Python helpers -/

/-- Python `max(seq, default=d)`: `d` only when the sequence is empty. -/
def pyMaxD (d : Int) : List Int → Int
  | [] => d
  | h :: t => t.foldl max h

/-- Python truthiness of an `int`: `0` is falsy. -/
def intTruthy (z : Int) : Bool := z != 0

/-! ## Enumerations

`Mode` and `ShapeType` are imported by `shapes.py` from
`_shapes_constants` (not in the source tree).  Modelled from the spec:
the mode enumeration is `{PanZoom, Select, Direct, VertexInsert,
VertexRemove, AddRectangle, AddEllipse, AddLine, AddPath, AddPolygon}`
and the shape-type tag is `{Rectangle, Ellipse, Line, Path, Polygon}`;
both sets agree with the constants referenced throughout `shapes.py`. -/

inductive Mode where
  | panZoom | select | direct | vertexInsert | vertexRemove
  | addRectangle | addEllipse | addLine | addPath | addPolygon
deriving DecidableEq, Repr

inductive ShapeType where
  | rectangle | ellipse | line | path | polygon
deriving DecidableEq, Repr

/-- The modes called `draw_modes` in the mode setter of `shapes.py`
(`[Mode.SELECT, Mode.DIRECT, Mode.VERTEX_INSERT, Mode.VERTEX_REMOVE]`). -/
def drawModes : List Mode :=
  [Mode.select, Mode.direct, Mode.vertexInsert, Mode.vertexRemove]

/-! ## Data model -/

/-- An RGBA color row (one row of the `edge_color`/`face_color` arrays). -/
abbrev ColorRow := List ℚ

/-- One geometric primitive, as held by the shape list.
Modelled from the spec: the per-type shape objects live in
`_shapes_models` (not in the source tree); each owns its raw `data`
(N vertices × D coordinates), `edge_width`, `z_index`, and the derived
displayed (projected) vertices cached for the current slice. -/
structure PShape where
  stype : ShapeType
  data : List (List ℚ)
  edge_width : ℚ
  z_index : Int
  /-- Cached projection of the shape onto the displayed axes
  (the rows of `ShapeList.displayed_vertices` owned by this shape). -/
  displayed : List (List ℚ)
deriving DecidableEq, Repr

/-- The clipboard snapshot built by `Shapes._copy_data`:
`{data, edge_color, face_color, properties, indices}`. -/
structure ClipboardData where
  data : List PShape
  edge_color : List ColorRow
  face_color : List ColorRow
  properties : List (String × List Int)
  indices : List Int
deriving DecidableEq, Repr

/-- The state of one `Shapes` layer: the dims input it consumes, the
stored projections of that input, the shape list (`self._data_view`,
spec-modelled where `ShapeList` internals matter), and the editing state
used by the mode state machine and the clipboard.

The float-valued `_selected_box` cache and the `current_*` convenience
fields synchronised by the `selected_data` setter are not carried here;
they are derived display state that none of the embedded operations read.
The interaction-box algebra is embedded separately over `ℝ`. -/
structure ShapesLayer where
  -- dims navigation input (`self.dims`)
  dims_ndim : Nat
  dims_ndisplay : Nat
  dims_order : List Nat
  dims_indices : List Int
  -- stored projections on the layer
  ndisplay_stored : Nat
  display_order_stored : List Nat
  -- the shape list `self._data_view`
  shapes : List PShape
  edge_color : List ColorRow
  face_color : List ColorRow
  dv_slice_key : List Int
  dv_ndisplay : Nat
  dv_order : List Nat
  -- editing state
  visible : Bool
  properties : List (String × List Int)
  selected_data : List Nat
  clipboard : Option ClipboardData
  mode : Mode
  editable : Bool
  cursor : String
  interactive : Bool
  help : String
  status : String
  mouse_drag_callbacks : List String
  mouse_move_callbacks : List String
  is_moving : Bool
  is_creating : Bool
  is_selecting : Bool
  moving_value : Option Nat × Option Nat
  value : Option Nat × Option Nat
  drag_start : Option (ℚ × ℚ)
  drag_box : Option (List (ℚ × ℚ))
  fixed_vertex : Option (ℚ × ℚ)
deriving DecidableEq, Repr

/-! ## Dims projections (`napari/components/dims.py`) -/

/-- `Dims.displayed`: `self.order[-self.ndisplay :]`. -/
def dimsDisplayed (s : ShapesLayer) : List Nat :=
  s.dims_order.drop (s.dims_order.length - s.dims_ndisplay)

/-- `Dims.not_displayed`: `self.order[: -self.ndisplay]`. -/
def dimsNotDisplayed (s : ShapesLayer) : List Nat :=
  s.dims_order.take (s.dims_order.length - s.dims_ndisplay)

/-- The slice key computed in `Shapes._set_view_slice`:
`np.array(self.dims.indices)[list(self.dims.not_displayed)]`. -/
def sliceKeyOf (s : ShapesLayer) : List Int :=
  (dimsNotDisplayed s).map (fun i => s.dims_indices.getD i 0)

/-! ## `Shapes._set_view_slice` (claims C1, C2) -/

/-- `Shapes._set_view_slice`: reacts to a dims change by (1) on an
`ndisplay` change clearing the selection and the clipboard and pushing
the new `ndisplay` into the shape list, (2) on an axis-order change
clearing the selection and the clipboard and pushing the new order, and
(3) on a slice-key change clearing the selection, finally storing the
new slice key.  The `ShapeList.ndisplay` / `update_dims_order` /
`slice_key` setters (not in the source tree) are modelled from the spec
as storing their argument and re-projecting the displayed data; they do
not touch the other stored keys. -/
def set_view_slice (s : ShapesLayer) : ShapesLayer :=
  let s1 :=
    if s.dims_ndisplay ≠ s.ndisplay_stored then
      { s with selected_data := [],
               dv_ndisplay := min s.dims_ndim s.dims_ndisplay,
               ndisplay_stored := s.dims_ndisplay,
               clipboard := none }
    else s
  let s2 :=
    if s1.dims_order ≠ s1.display_order_stored then
      { s1 with selected_data := [],
                dv_order := s1.dims_order,
                display_order_stored := s1.dims_order,
                clipboard := none }
    else s1
  let key := sliceKeyOf s2
  let s3 :=
    if key ≠ s2.dv_slice_key then { s2 with selected_data := [] } else s2
  { s3 with dv_slice_key := key }

/-- `Layer.refresh` (base.py): when the layer is visible, re-runs
`_set_view_slice`.  The thumbnail, cursor-coordinate and highlight
updates it also performs are rendering-side bookkeeping on fields not
carried in this state. -/
def refreshModel (s : ShapesLayer) : ShapesLayer :=
  if s.visible then set_view_slice s else s

/-- `Layer._update_dims` (base.py): re-derives dims metadata (ndim and
per-axis ranges) from the data and then calls `refresh`.  The range and
ndim rederivation reads shape extents and writes dims-range fields not
carried here and leaves every carried field unchanged when the data
dimensionality is unchanged, which holds in all operations embedded
below; the `refresh` part is carried. -/
def updateDimsModel (s : ShapesLayer) : ShapesLayer :=
  refreshModel s

/-! ## Shape-list operations (spec-modelled `ShapeList` internals) -/

/-- Replace the element at index `i` (no-op when out of range). -/
def listModify {α : Type} (l : List α) (i : Nat) (f : α → α) : List α :=
  match l, i with
  | [], _ => []
  | x :: t, 0 => f x :: t
  | x :: t, n + 1 => x :: listModify t n f

/-- Modelled from the spec: `ShapeList.remove(index)` deletes the shape
and, to keep the per-shape style arrays index-aligned, deletes the same
row of `edge_color` and `face_color`. -/
def shapeListRemove (s : ShapesLayer) (i : Nat) : ShapesLayer :=
  { s with shapes := s.shapes.eraseIdx i,
           edge_color := s.edge_color.eraseIdx i,
           face_color := s.face_color.eraseIdx i }

/-- Modelled from the spec: the displayed (projected) vertices of a
shape are its coordinates on the currently-displayed axes. -/
def projectData (s : ShapesLayer) (data : List (List ℚ)) : List (List ℚ) :=
  data.map (fun v => (dimsDisplayed s).map (fun i => v.getD i 0))

/-- Modelled from the spec: `ShapeList.edit(index, data)` replaces the
shape's vertex data and recomputes its displayed projection. -/
def shapeListEdit (s : ShapesLayer) (i : Nat) (newData : List (List ℚ)) :
    ShapesLayer :=
  let upd : PShape → PShape :=
    fun sh => { sh with data := newData
                        displayed := projectData s newData }
  { s with shapes := listModify s.shapes i upd }

/-- Modelled from the spec: `ShapeList.add(shape, edge_color, face_color)`
appends the shape — with its displayed projection recomputed for the
current view — and its style rows in lock-step. -/
def shapeListAdd (s : ShapesLayer) (sh : PShape) (ec fc : ColorRow) :
    ShapesLayer :=
  let sh' := { sh with displayed := projectData s sh.data }
  { s with shapes := s.shapes ++ [sh']
           edge_color := s.edge_color ++ [ec]
           face_color := s.face_color ++ [fc] }

/-! ## `Shapes.expand_shape` -/

/-- `Dims.displayed_order`: the rank of each displayed axis among the
displayed axes (`order[np.argsort(order)] = range(len(order))`). -/
def displayedOrder (s : ShapesLayer) : List Nat :=
  (dimsDisplayed s).map
    (fun a => ((dimsDisplayed s).filter (fun b => b < a)).length)

/-- `Shapes.expand_shape(data)`: expand displayed-space vertex data to
the full data dimensionality, filling non-displayed coordinates with the
current dims indices. -/
def expand_shape (s : ShapesLayer) (data : List (List ℚ)) :
    List (List ℚ) :=
  if s.dims_ndim = 2 then
    data.map (fun v => (displayedOrder s).map (fun j => v.getD j 0))
  else
    data.map (fun v =>
      (List.range s.dims_ndim).map (fun i =>
        match (dimsDisplayed s).findIdx? (· = i) with
        | some k => v.getD k 0
        | none =>
          if i ∈ dimsNotDisplayed s then (s.dims_indices.getD i 0 : ℚ)
          else 0))

/-! ## `Shapes._finish_drawing` (claim C5) -/

/-- The displayed vertices owned by shape `index`
(`displayed_vertices[displayed_index == index]`). -/
def displayedVertsOf (s : ShapesLayer) (index : Option Nat) :
    List (List ℚ) :=
  match index with
  | none => []
  | some i =>
    match s.shapes.get? i with
    | some sh => sh.displayed
    | none => []

/-- `Shapes._finish_drawing`: resets the drag/creation bookkeeping,
clears the selection, and — when a shape is in creation and the layer's
(already updated) mode is ADD_PATH/ADD_POLYGON — removes the in-progress
shape if it has too few displayed vertices, else commits it without its
trailing cursor vertex.  Ends with `_update_dims`. -/
def finish_drawing (s : ShapesLayer) : ShapesLayer :=
  let index := s.moving_value.1
  let s1 := { s with is_moving := false
                     selected_data := []
                     drag_start := none
                     drag_box := none
                     is_selecting := false
                     fixed_vertex := none
                     value := (none, none)
                     moving_value := (none, none) }
  let s2 :=
    if s1.is_creating = true ∧ s1.mode = Mode.addPath then
      let vertices := displayedVertsOf s1 index
      if vertices.length ≤ 2 then
        shapeListRemove s1 (index.getD 0)
      else
        shapeListEdit s1 (index.getD 0) (expand_shape s1 vertices).dropLast
    else s1
  let s3 :=
    if s2.is_creating = true ∧ s2.mode = Mode.addPolygon then
      let vertices := displayedVertsOf s2 index
      if vertices.length ≤ 3 then
        shapeListRemove s2 (index.getD 0)
      else
        shapeListEdit s2 (index.getD 0) (expand_shape s2 vertices).dropLast
    else s2
  updateDimsModel { s3 with is_creating := false }

/-! ## The mode setter (claims C4, C5) -/

/-- `str(mode)` for the status field. -/
def modeStr : Mode → String
  | .panZoom => "pan_zoom"
  | .select => "select"
  | .direct => "direct"
  | .vertexInsert => "vertex_insert"
  | .vertexRemove => "vertex_remove"
  | .addRectangle => "add_rectangle"
  | .addEllipse => "add_ellipse"
  | .addLine => "add_line"
  | .addPath => "add_path"
  | .addPolygon => "add_polygon"

/-- Unregister the pointer handlers of the outgoing mode (the
`mouse_drag_callbacks.remove(...)` block of the mode setter). -/
def unregisterOld (s : ShapesLayer) (old : Mode) : ShapesLayer :=
  match old with
  | .select | .direct =>
    { s with mouse_drag_callbacks := s.mouse_drag_callbacks.erase "select",
             mouse_move_callbacks := s.mouse_move_callbacks.erase "highlight" }
  | .vertexInsert =>
    { s with
      mouse_drag_callbacks := s.mouse_drag_callbacks.erase "vertex_insert",
      mouse_move_callbacks := s.mouse_move_callbacks.erase "highlight" }
  | .vertexRemove =>
    { s with
      mouse_drag_callbacks := s.mouse_drag_callbacks.erase "vertex_remove",
      mouse_move_callbacks := s.mouse_move_callbacks.erase "highlight" }
  | .addRectangle =>
    { s with
      mouse_drag_callbacks := s.mouse_drag_callbacks.erase "add_rectangle" }
  | .addEllipse =>
    { s with
      mouse_drag_callbacks := s.mouse_drag_callbacks.erase "add_ellipse" }
  | .addLine =>
    { s with
      mouse_drag_callbacks := s.mouse_drag_callbacks.erase "add_line" }
  | .addPath | .addPolygon =>
    { s with
      mouse_drag_callbacks :=
        s.mouse_drag_callbacks.erase "add_path_polygon",
      mouse_move_callbacks :=
        s.mouse_move_callbacks.erase "add_path_polygon_creating" }
  | .panZoom => s

/-- Register the incoming mode's handlers and set cursor, interactivity
and help text (the mode-dispatch block of the mode setter). -/
def registerNew (s : ShapesLayer) (m : Mode) : ShapesLayer :=
  match m with
  | .panZoom =>
    { s with cursor := "standard", interactive := true,
             help := "enter a selection mode to edit shape properties" }
  | .select | .direct =>
    { s with cursor := "pointing", interactive := false,
             help := "hold <space> to pan/zoom, press <Backspace> to remove selected",
             mouse_drag_callbacks := s.mouse_drag_callbacks ++ ["select"],
             mouse_move_callbacks := s.mouse_move_callbacks ++ ["highlight"] }
  | .vertexInsert =>
    { s with cursor := "cross", interactive := false,
             help := "hold <space> to pan/zoom",
             mouse_drag_callbacks := s.mouse_drag_callbacks ++ ["vertex_insert"],
             mouse_move_callbacks := s.mouse_move_callbacks ++ ["highlight"] }
  | .vertexRemove =>
    { s with cursor := "cross", interactive := false,
             help := "hold <space> to pan/zoom",
             mouse_drag_callbacks := s.mouse_drag_callbacks ++ ["vertex_remove"],
             mouse_move_callbacks := s.mouse_move_callbacks ++ ["highlight"] }
  | .addRectangle =>
    { s with cursor := "cross", interactive := false,
             help := "hold <space> to pan/zoom",
             mouse_drag_callbacks := s.mouse_drag_callbacks ++ ["add_rectangle"] }
  | .addEllipse =>
    { s with cursor := "cross", interactive := false,
             help := "hold <space> to pan/zoom",
             mouse_drag_callbacks := s.mouse_drag_callbacks ++ ["add_ellipse"] }
  | .addLine =>
    { s with cursor := "cross", interactive := false,
             help := "hold <space> to pan/zoom",
             mouse_drag_callbacks := s.mouse_drag_callbacks ++ ["add_line"] }
  | .addPath | .addPolygon =>
    { s with cursor := "cross", interactive := false,
             help := "hold <space> to pan/zoom, press <esc> to finish drawing",
             mouse_drag_callbacks :=
               s.mouse_drag_callbacks ++ ["add_path_polygon"],
             mouse_move_callbacks :=
               s.mouse_move_callbacks ++ ["add_path_polygon_creating"] }

/-- The `Shapes.mode` setter: coerce to PAN_ZOOM when non-editable,
return early when the mode is unchanged, otherwise swap the pointer
handlers, update cursor/help/status, store the new mode, and — unless
both the old and the new mode are draw modes — call `_finish_drawing`;
finally `refresh`. -/
def set_mode (s : ShapesLayer) (requested : Mode) : ShapesLayer :=
  let m := if s.editable then requested else Mode.panZoom
  if m = s.mode then s
  else
    let old := s.mode
    let sA := unregisterOld s old
    let sB := registerNew sA m
    let sC := { sB with status := modeStr m, mode := m }
    let sD :=
      if ¬ (m ∈ drawModes ∧ old ∈ drawModes) then finish_drawing sC else sC
    refreshModel sD

/-- `Shapes._set_editable`: viewing in 3D makes the layer non-editable,
and a non-editable layer is forced into PAN_ZOOM. -/
def set_editable (s : ShapesLayer) : ShapesLayer :=
  let s1 := { s with editable := ¬ (s.dims_ndisplay = 3) }
  if s1.editable = false then set_mode s1 Mode.panZoom else s1

/-! ## Copy, paste and z-order (claims C3, C10) -/

/-- The maximum of a z-index list (`max(self._data_view._z_index)`;
only evaluated on a non-empty collection in the source). -/
def zIndexMax : List Int → Int
  | [] => 0
  | h :: t => t.foldl max h

/-- Update the z-index of one shape (modelled from the spec:
`ShapeList.update_z_index(index, new_z)` stores the new z for that
shape). -/
def updateZIndex (shapes : List PShape) (i : Nat) (z : Int) :
    List PShape :=
  listModify shapes i (fun p => { p with z_index := z })

/-- `Shapes.move_to_front`: give every selected shape a z-index one
above the current maximum, then refresh. -/
def move_to_front (s : ShapesLayer) : ShapesLayer :=
  if s.selected_data.length = 0 then s
  else
    let newZ := zIndexMax (s.shapes.map PShape.z_index) + 1
    let shapes' :=
      s.selected_data.foldl (fun acc i => updateZIndex acc i newZ) s.shapes
    refreshModel { s with shapes := shapes' }

/-- `Shapes._copy_data`: snapshot the selected shapes' geometry, style
rows, properties, and the current dims indices; empty selection clears
the clipboard. -/
def copy_data (s : ShapesLayer) : ShapesLayer :=
  if s.selected_data.length > 0 then
    let idx := s.selected_data
    let cb : ClipboardData :=
      { data := idx.filterMap (fun i => s.shapes.get? i)
        edge_color := idx.map (fun i => s.edge_color.getD i [])
        face_color := idx.map (fun i => s.face_color.getD i [])
        properties := s.properties.map
          (fun kv => (kv.1, idx.map (fun i => kv.2.getD i 0)))
        indices := s.dims_indices }
    { s with clipboard := some cb }
  else
    { s with clipboard := none }

/-- The shifted deep copy built in the paste loop:
`data[:, self.dims.not_displayed] += offset` with
`offset[j] = self.dims.indices[i] - clipboard['indices'][i]` for each
non-displayed axis `i`. -/
def shiftShape (s : ShapesLayer) (cb : ClipboardData) (sh : PShape) :
    PShape :=
  let newData := sh.data.map (fun v =>
    v.mapIdx (fun i x =>
      if i ∈ dimsNotDisplayed s then
        x + ((s.dims_indices.getD i 0 - cb.indices.getD i 0 : Int) : ℚ)
      else x))
  { sh with data := newData }

/-- Append the clipboard's property columns
(`properties[k] = concatenate(properties[k], clipboard['properties'][k])`). -/
def appendProps (props cbProps : List (String × List Int)) :
    List (String × List Int) :=
  props.map (fun kv =>
    (kv.1, kv.2 ++ ((cbProps.find? (fun p => p.1 = kv.1)).map Prod.snd).getD []))

/-- The `for i, s in enumerate(self._clipboard['data'])` loop of
`Shapes._paste_data`: shift each snapshotted shape and add it with its
snapshotted style rows. -/
def pasteLoop (cb : ClipboardData) : Nat → List PShape → ShapesLayer →
    ShapesLayer
  | _, [], acc => acc
  | i, sh :: rest, acc =>
    pasteLoop cb (i + 1) rest
      (shapeListAdd acc (shiftShape acc cb sh)
        (cb.edge_color.getD i []) (cb.face_color.getD i []))

/-- `Shapes._paste_data`: with a non-empty clipboard, append the
snapshot's property columns, insert a shifted deep copy of every
snapshotted shape, select exactly the newly inserted shapes, and move
them to the front. -/
def paste_data (s : ShapesLayer) : ShapesLayer :=
  let cur := s.shapes.length
  match s.clipboard with
  | none => s
  | some cb =>
    let s1 := { s with properties := appendProps s.properties cb.properties }
    let s2 := pasteLoop cb 0 cb.data s1
    let s3 := { s2 with selected_data := List.range' cur cb.data.length }
    move_to_front s3

/-- The z-index defaulting shared by `Shapes.add` and
`Shapes._add_shapes`:
`z_index = z_index or max(self._data_view._z_index, default=-1) + 1`.
Python's `or` takes the fallback whenever the left value is falsy, so
an explicit `0` is treated like `None`. -/
def resolveZIndex (z : Option Int) (zs : List Int) : Int :=
  let fallback := pyMaxD (-1) zs + 1
  match z with
  | none => fallback
  | some v => if intTruthy v then v else fallback

/-- The z-index finally assigned by `Shapes.add`: `add` applies the
defaulting once and passes the resulting `int` to `Shapes._add_shapes`,
which applies the same defaulting again. -/
def addAssignedZIndex (z : Option Int) (zs : List Int) : Int :=
  resolveZIndex (some (resolveZIndex z zs)) zs

/-! ## Color-attribute resolution (claims C8, C9)

The color state below is the per-attribute (`'edge'` or `'face'`)
projection of the layer fields used by `_set_color_mode`, `_map_color`
and `_get_new_shape_color`.  RGBA rows are abstracted to opaque rational
identifiers: the color cycle's entries are opaque ids (`transform_color`
normalisation, from the missing `standardize_color` module, is treated
as the identity on them), and a colormap color is identified with its
normalised sampling position. -/

abbrev CColor := ℚ

/-- `ColorMode` from `_shapes_constants` (not in the source tree).
Modelled from the spec: `{DIRECT, CYCLE, COLORMAP}`. -/
inductive ColorMode where
  | direct | cycle | colormap
deriving DecidableEq, Repr

/-- One column of the properties table, with its dtype's numeric flag
(`issubclass(dtype.type, np.number)`). -/
structure PropColumn where
  values : List Int
  numeric : Bool
deriving DecidableEq, Repr

structure ColorState where
  color_mode : ColorMode
  color_property : String
  properties : List (String × PropColumn)
  current_properties : List (String × Int)
  current_color : CColor
  /-- The sequence wrapped by the `itertools.cycle` iterator. -/
  cycle_colors : List CColor
  /-- How many colors the cycle iterator has yielded so far. -/
  cycle_pos : Nat
  /-- The insertion-ordered `value -> color` dict (`*_color_cycle_map`). -/
  cycle_map : List (Int × CColor)
  contrast_limits : Option (Int × Int)
  update_properties : Bool
deriving DecidableEq, Repr

inductive ColorErr where
  /-- `ValueError: There must be a valid Shapes.properties to use ...` -/
  | noPropertiesAvailable
  /-- `TypeError: selected property must be numeric to use ColorMode.COLORMAP` -/
  | nonNumericProperty
  /-- A `KeyError` from `self.properties[color_property]`. -/
  | keyError
deriving DecidableEq, Repr

/-- Lookup in the `value -> color` dict. -/
def amlookup : List (Int × CColor) → Int → Option CColor
  | [], _ => none
  | p :: t, v => if p.1 = v then some p.2 else amlookup t v

/-- Insert into a sorted duplicate-free list. -/
def insertSorted (x : Int) : List Int → List Int
  | [] => [x]
  | y :: t =>
    if x < y then x :: y :: t
    else if x = y then y :: t
    else y :: insertSorted x t

/-- `np.unique`: the sorted distinct values of a list. -/
def npUnique (l : List Int) : List Int := l.foldr insertSorted []

/-- The values of the active color property
(`self.properties[color_property]`; a missing key raises `KeyError` in
the source, totalised here to `[]` — the theorems below only use states
where the property exists). -/
def propValues (s : ColorState) : List Int :=
  ((s.properties.find? (fun p => p.1 = s.color_property)).map
    (fun p => p.2.values)).getD []

/-- The color the cycle iterator yields after `k` further steps. -/
def cycleColorAt (s : ColorState) (k : Nat) : CColor :=
  s.cycle_colors.getD ((s.cycle_pos + k) % s.cycle_colors.length) 0

/-- The next `n` colors the cycle iterator yields. -/
def drawColors (s : ColorState) (n : Nat) : List CColor :=
  (List.range n).map (cycleColorAt s)

/-- Modelled from the spec: `layer_utils.map_property` samples the
colormap at `(value − lo)/(hi − lo)` clamped to `[0, 1]`; the sampled
color is identified with that position. -/
def mapPropertySample (values : List Int) (lims : Int × Int) :
    List CColor :=
  values.map (fun v =>
    let t := ((v : ℚ) - (lims.1 : ℚ)) / ((lims.2 : ℚ) - (lims.1 : ℚ))
    min 1 (max 0 t))

/-- The default contrast limits: `(min, max)` of the property values. -/
def defaultLims (values : List Int) : Int × Int :=
  (values.foldl min (values.headD 0), values.foldl max (values.headD 0))

/-- `Shapes._map_color`: compute the colors for all shapes from the
cycle map (CYCLE) or the colormap (COLORMAP), together with the state
updates this performs (memoising new values / regenerating the map /
pinning contrast limits).  Only called with the mode in
{CYCLE, COLORMAP}. -/
def map_color (update : Bool) (s : ColorState) : ColorState × List CColor :=
  match s.color_mode with
  | ColorMode.direct => (s, [])
  | ColorMode.cycle =>
    let values := propValues s
    if update then
      let u := npUnique values
      let m := u.zip (drawColors s u.length)
      let s' := { s with cycle_map := m
                         cycle_pos := s.cycle_pos + u.length }
      (s', values.map (fun v => (amlookup m v).getD 0))
    else
      let missing := values.filter (fun v => (amlookup s.cycle_map v).isNone)
      if missing.length = 0 then
        (s, values.map (fun v => (amlookup s.cycle_map v).getD 0))
      else
        let toAdd := npUnique missing
        let m := s.cycle_map ++ toAdd.zip (drawColors s toAdd.length)
        let s' := { s with cycle_map := m
                           cycle_pos := s.cycle_pos + toAdd.length }
        (s', values.map (fun v => (amlookup m v).getD 0))
  | ColorMode.colormap =>
    let values := propValues s
    if values.length > 0 then
      if update = true ∨ s.contrast_limits = none then
        let lims := defaultLims values
        ({ s with contrast_limits := some lims },
         mapPropertySample values lims)
      else
        match s.contrast_limits with
        | some lims => (s, mapPropertySample values lims)
        | none => (s, [])
    else (s, [])

/-- `Shapes._refresh_color` for this attribute: recompute and store the
colors when properties updates are enabled and the mode is CYCLE or
COLORMAP (the computed color array itself is written to the shape list,
which this state does not carry). -/
def refreshColor (s : ColorState) : ColorState :=
  if s.update_properties = true ∧
      (s.color_mode = ColorMode.cycle ∨ s.color_mode = ColorMode.colormap)
  then (map_color false s).1
  else s

/-- `Shapes._get_new_shape_color`: the colors for `adding` shapes about
to be added, memoising a previously-unseen CYCLE property value with the
next cycle color. -/
def get_new_shape_color (adding : Nat) (s : ColorState) :
    ColorState × List CColor :=
  match s.color_mode with
  | ColorMode.direct => (s, List.replicate adding s.current_color)
  | ColorMode.cycle =>
    let v := ((s.current_properties.find?
      (fun p => p.1 = s.color_property)).map Prod.snd).getD 0
    match amlookup s.cycle_map v with
    | some c => (s, List.replicate adding c)
    | none =>
      let c := cycleColorAt s 0
      let s' := { s with cycle_pos := s.cycle_pos + 1
                         cycle_map := s.cycle_map ++ [(v, c)] }
      (s', List.replicate adding c)
  | ColorMode.colormap =>
    let v := ((s.current_properties.find?
      (fun p => p.1 = s.color_property)).map Prod.snd).getD 0
    let lims := s.contrast_limits.getD (v, v)
    (s, List.replicate adding ((mapPropertySample [v] lims).getD 0 0))

/-- `Shapes._set_color_mode` for one attribute: DIRECT is stored
directly; CYCLE/COLORMAP require a color property (defaulting to the
first property and failing with `ValueError` when there is none), and
COLORMAP additionally requires it to be numeric (`TypeError`); on
success the mode is stored and the colors refreshed.  Returns the state
as mutated so far together with the raised error, if any. -/
def set_color_mode (s : ColorState) (cm : ColorMode) :
    ColorState × Option ColorErr :=
  match cm with
  | ColorMode.direct => ({ s with color_mode := ColorMode.direct }, none)
  | _ =>
    let step : ColorState × Option ColorErr :=
      if s.color_property = "" then
        match s.properties.head? with
        | some kv => ({ s with color_property := kv.1 }, none)
        | none => (s, some ColorErr.noPropertiesAvailable)
      else (s, none)
    match step with
    | (s1, some e) => (s1, some e)
    | (s1, none) =>
      if cm = ColorMode.colormap then
        match s1.properties.find? (fun p => p.1 = s1.color_property) with
        | none => (s1, some ColorErr.keyError)
        | some kv =>
          if kv.2.numeric = false then (s1, some ColorErr.nonNumericProperty)
          else (refreshColor { s1 with color_mode := cm }, none)
      else
        (refreshColor { s1 with color_mode := cm }, none)

/-! ## Interaction-box algebra (claims C6, C7)

The box is the 10×2 float array `self._selected_box`; it is embedded
over `ℝ` so the algebraic claims can be settled exactly. -/

abbrev Pt := ℝ × ℝ

noncomputable def psub (a b : Pt) : Pt := (a.1 - b.1, a.2 - b.2)

noncomputable def padd (a b : Pt) : Pt := (a.1 + b.1, a.2 + b.2)

noncomputable def psmul (t : ℝ) (v : Pt) : Pt := (t * v.1, t * v.2)

noncomputable def pmul (v scale : Pt) : Pt := (v.1 * scale.1, v.2 * scale.2)

/-- The Euclidean norm (`np.linalg.norm`). -/
noncomputable def norm2 (v : Pt) : ℝ := Real.sqrt (v.1 ^ 2 + v.2 ^ 2)

/-- Box-point indices from `_shapes_constants.Box` (not in the source
tree).  Modelled from the spec: points 0–7 are the corners and edge
midpoints clockwise from the upper left, 8 the center, 9 the rotation
handle; `TOP_CENTER` is the top edge midpoint at index 7. -/
def boxTopLeft : Fin 10 := 0
def boxBottomLeft : Fin 10 := 2
def boxTopCenter : Fin 10 := 7
def boxCenter : Fin 10 := 8
def boxHandle : Fin 10 := 9

/-- The float state touched by the box transforms. -/
structure BoxState where
  selected_box : Fin 10 → Pt
  rotation_handle_length : ℝ
  scale_factor : ℝ

/-- `self._rotation_handle_length * self.scale_factor`. -/
noncomputable def handleR (s : BoxState) : ℝ :=
  s.rotation_handle_length * s.scale_factor

/-- `np.radians`. -/
noncomputable def radians (a : ℝ) : ℝ := a * (Real.pi / 180)

/-- One row of `box @ transform.T` for the rotation matrix
`[[cos θ, sin θ], [−sin θ, cos θ]]`. -/
noncomputable def rot2 (θ : ℝ) (v : Pt) : Pt :=
  (v.1 * Real.cos θ + v.2 * Real.sin θ,
   -(v.1 * Real.sin θ) + v.2 * Real.cos θ)

/-- `Shapes._rotate_box(angle, center)`: rotate every box point about
`center` by `angle` degrees. -/
noncomputable def rotate_box (s : BoxState) (angle : ℝ) (center : Pt) :
    BoxState :=
  let θ := radians angle
  { s with selected_box :=
      fun i => padd (rot2 θ (psub (s.selected_box i) center)) center }

/-- The handle re-placement shared by `_scale_box` and `_transform_box`:
unless the transformed handle coincides with the transformed top-center,
put the handle at distance `r` from the top-center along the handle
vector. -/
noncomputable def renormalizeHandle (box : Fin 10 → Pt) (r : ℝ) :
    Fin 10 → Pt :=
  if box boxTopCenter = box boxHandle then box
  else
    let hv := psub (box boxHandle) (box boxTopCenter)
    fun i =>
      if i = boxHandle then padd (box boxTopCenter) (psmul (r / norm2 hv) hv)
      else box i

/-- `Shapes._scale_box(scale, center)`. -/
noncomputable def scale_box (s : BoxState) (scale : Pt) (center : Pt) :
    BoxState :=
  let box1 : Fin 10 → Pt := fun i => pmul (psub (s.selected_box i) center) scale
  let box2 := renormalizeHandle box1 (handleR s)
  { s with selected_box := fun i => padd (box2 i) center }

/-- A 2×2 transform matrix `[[a, b], [c, d]]`. -/
structure Mat2 where
  a : ℝ
  b : ℝ
  c : ℝ
  d : ℝ

/-- One row of `box @ transform.T`. -/
noncomputable def apply2x2 (m : Mat2) (v : Pt) : Pt :=
  (m.a * v.1 + m.b * v.2, m.c * v.1 + m.d * v.2)

/-- `Shapes._transform_box(transform, center)`. -/
noncomputable def transform_box (s : BoxState) (m : Mat2) (center : Pt) :
    BoxState :=
  let box1 : Fin 10 → Pt := fun i => apply2x2 m (psub (s.selected_box i) center)
  let box2 := renormalizeHandle box1 (handleR s)
  { s with selected_box := fun i => padd (box2 i) center }

/-- The distance from the box's top-center point to its rotation
handle. -/
noncomputable def handleDist (s : BoxState) : ℝ :=
  norm2 (psub (s.selected_box boxHandle) (s.selected_box boxTopCenter))

/-! ## A reference layer state for concrete instances -/

/-- A consistent 2-D layer with no shapes, used as the base of the
concrete states below. -/
def baseLayer : ShapesLayer :=
  { dims_ndim := 2
    dims_ndisplay := 2
    dims_order := [0, 1]
    dims_indices := [0, 0]
    ndisplay_stored := 2
    display_order_stored := [0, 1]
    shapes := []
    edge_color := []
    face_color := []
    dv_slice_key := []
    dv_ndisplay := 2
    dv_order := [0, 1]
    visible := true
    properties := []
    selected_data := []
    clipboard := none
    mode := Mode.panZoom
    editable := true
    cursor := "standard"
    interactive := true
    help := ""
    status := ""
    mouse_drag_callbacks := []
    mouse_move_callbacks := []
    is_moving := false
    is_creating := false
    is_selecting := false
    moving_value := (none, none)
    value := (none, none)
    drag_start := none
    drag_box := none
    fixed_vertex := none }

/-! ## Preservation lemmas -/

@[simp] lemma set_view_slice_mode (s : ShapesLayer) :
    (set_view_slice s).mode = s.mode := by
  unfold set_view_slice
  dsimp only
  split <;> split <;> split <;> rfl

@[simp] lemma set_view_slice_shapes (s : ShapesLayer) :
    (set_view_slice s).shapes = s.shapes := by
  unfold set_view_slice
  dsimp only
  split <;> split <;> split <;> rfl

@[simp] lemma refreshModel_mode (s : ShapesLayer) :
    (refreshModel s).mode = s.mode := by
  unfold refreshModel
  split <;> simp

@[simp] lemma refreshModel_shapes (s : ShapesLayer) :
    (refreshModel s).shapes = s.shapes := by
  unfold refreshModel
  split <;> simp

@[simp] lemma updateDimsModel_mode (s : ShapesLayer) :
    (updateDimsModel s).mode = s.mode := by
  unfold updateDimsModel
  simp

@[simp] lemma shapeListRemove_mode (s : ShapesLayer) (i : Nat) :
    (shapeListRemove s i).mode = s.mode := rfl

@[simp] lemma shapeListEdit_mode (s : ShapesLayer) (i : Nat)
    (d : List (List ℚ)) : (shapeListEdit s i d).mode = s.mode := rfl

@[simp] lemma finish_drawing_mode (s : ShapesLayer) :
    (finish_drawing s).mode = s.mode := by
  unfold finish_drawing
  dsimp only
  rw [updateDimsModel_mode]
  repeat' split
  all_goals rfl

@[simp] lemma unregisterOld_mode (s : ShapesLayer) (m : Mode) :
    (unregisterOld s m).mode = s.mode := by
  cases m <;> rfl

@[simp] lemma unregisterOld_editable (s : ShapesLayer) (m : Mode) :
    (unregisterOld s m).editable = s.editable := by
  cases m <;> rfl

@[simp] lemma registerNew_mode (s : ShapesLayer) (m : Mode) :
    (registerNew s m).mode = s.mode := by
  cases m <;> rfl

/-! ## Claim C10: explicit `z_index=0` in `add` -/

/-- C10: for a collection that already contains at least one shape,
`add(data, z_index=0)` does not take the explicit value `0` on its own
terms: Python's `or` makes it behave exactly like `z_index=None`, so the
shapes receive `(maximum existing z_index) + 1` (which itself equals `0`
only when the maximum existing z-index is `-1`). -/
theorem add_zero_z_index_behaves_like_none (zs : List Int) (_h : zs ≠ []) :
    addAssignedZIndex (some 0) zs = pyMaxD (-1) zs + 1 ∧
    addAssignedZIndex (some 0) zs = addAssignedZIndex none zs ∧
    (0 ≤ pyMaxD (-1) zs → addAssignedZIndex (some 0) zs ≠ 0) := by
  have hs : ∀ v : Int, resolveZIndex (some v) zs =
      if v = 0 then pyMaxD (-1) zs + 1 else v := by
    intro v
    by_cases hv : v = 0 <;> simp [resolveZIndex, intTruthy, hv]
  have hsf : resolveZIndex (some (pyMaxD (-1) zs + 1)) zs =
      pyMaxD (-1) zs + 1 := by
    rw [hs]
    by_cases hf : pyMaxD (-1) zs + 1 = 0
    · simp [hf]
    · simp [hf]
  have ha : addAssignedZIndex (some 0) zs = pyMaxD (-1) zs + 1 := by
    rw [addAssignedZIndex, hs 0]
    simpa using hsf
  refine ⟨ha, ?_, ?_⟩
  · rw [ha]
    rw [addAssignedZIndex]
    have hn : resolveZIndex none zs = pyMaxD (-1) zs + 1 := rfl
    rw [hn, hsf]
  · intro hmax
    rw [ha]
    omega

/-- Witness for C10 at `zs = [0, 5]`, explicit `z_index = 0`. -/
theorem add_zero_z_index_behaves_like_none_witness :
    ([0, 5] : List Int) ≠ [] ∧
      addAssignedZIndex (some 0) [0, 5] = pyMaxD (-1) [0, 5] + 1 := by
  refine ⟨by decide, ?_⟩
  exact (add_zero_z_index_behaves_like_none [0, 5] (by decide)).1

/-! ## Claim C4: non-editable layers coerce every mode to PAN_ZOOM -/

/-- C4: when the layer is non-editable, `set_mode(m)` leaves the layer
in PAN_ZOOM for every requested mode `m` (the coercion is total and
silent: the model's mode setter is a total function and never reaches
the `ValueError` branch for a valid `Mode`). -/
theorem set_mode_noneditable_coerces_to_panzoom (s : ShapesLayer) (m : Mode)
    (h : s.editable = false) : (set_mode s m).mode = Mode.panZoom := by
  have hco : (if s.editable = true then m else Mode.panZoom) = Mode.panZoom := by
    rw [h]
    rfl
  unfold set_mode
  rw [hco]
  dsimp only
  split
  · next hEq => exact hEq.symm
  · rw [refreshModel_mode]
    split
    · rw [finish_drawing_mode]
    · rfl

/-- A non-editable layer currently in Select mode. -/
def nonEditableLayer : ShapesLayer :=
  { baseLayer with editable := false
                   mode := Mode.select }

/-- Witness for C4: a non-editable layer asked for `AddPolygon`. -/
theorem set_mode_noneditable_coerces_to_panzoom_witness :
    nonEditableLayer.editable = false ∧
      (set_mode nonEditableLayer Mode.addPolygon).mode = Mode.panZoom :=
  ⟨rfl, set_mode_noneditable_coerces_to_panzoom nonEditableLayer
    Mode.addPolygon rfl⟩

/-! ## Claims C1, C2: what a view-slice update invalidates -/

/-- A clipboard snapshot taken at slice position `z = 3`. -/
def cbEx : ClipboardData :=
  { data := []
    edge_color := []
    face_color := []
    properties := []
    indices := [3, 0, 0] }

/-- A 3-D layer whose dims moved from plane `3` to plane `7` since the
last slicing (so only the slice key differs from the stored one), with a
non-empty clipboard and a non-empty selection. -/
def sliceChangeLayer : ShapesLayer :=
  { baseLayer with dims_ndim := 3
                   dims_order := [0, 1, 2]
                   dims_indices := [7, 0, 0]
                   display_order_stored := [0, 1, 2]
                   dv_order := [0, 1, 2]
                   dv_slice_key := [3]
                   clipboard := some cbEx
                   selected_data := [0] }

/-- A layer whose axis order changed since the last slicing, with a
non-empty clipboard. -/
def orderChangeLayer : ShapesLayer :=
  { baseLayer with dims_order := [1, 0]
                   clipboard := some cbEx }

/-- A slice-consistent layer (nothing differs from the stored values)
with one selected shape. -/
def selectedNoChangeLayer : ShapesLayer :=
  { baseLayer with selected_data := [0] }

/-- Counterexample to C1 as stated: `_set_view_slice` is also called
when nothing changed (every `refresh`), and such a call leaves a
non-empty selection in place — it only clears the selection when
`ndisplay`, the axis order, or the slice key actually differs from the
stored value. -/
theorem set_view_slice_no_change_keeps_selection :
    (set_view_slice selectedNoChangeLayer).selected_data = [0] := by decide

/-- C1 (amended): after a `_set_view_slice` call in which `ndisplay`,
the dims order, or the slice key actually changed, `selected_data` is
empty. -/
theorem set_view_slice_clears_selection_on_change (s : ShapesLayer)
    (h : s.dims_ndisplay ≠ s.ndisplay_stored ∨
         s.dims_order ≠ s.display_order_stored ∨
         sliceKeyOf s ≠ s.dv_slice_key) :
    (set_view_slice s).selected_data = [] := by
  unfold set_view_slice
  dsimp only
  split_ifs <;>
    first
      | rfl
      | (exfalso; rcases h with hc | hc | hc <;> simp_all)

/-- Witness for C1 (amended): the slice key moved from plane 3 to
plane 7, so the selection is cleared. -/
theorem set_view_slice_clears_selection_on_change_witness :
    sliceKeyOf sliceChangeLayer ≠ sliceChangeLayer.dv_slice_key ∧
      (set_view_slice sliceChangeLayer).selected_data = [] :=
  ⟨by decide, set_view_slice_clears_selection_on_change sliceChangeLayer
    (Or.inr (Or.inr (by decide)))⟩

/-- Counterexample to C2 as stated: a slice-key-only change does *not*
clear the clipboard (only `ndisplay` and dims-order changes do) — which
is what lets a snapshot taken at one plane be pasted onto another. -/
theorem set_view_slice_slice_key_change_keeps_clipboard :
    sliceKeyOf sliceChangeLayer ≠ sliceChangeLayer.dv_slice_key ∧
      (set_view_slice sliceChangeLayer).clipboard = some cbEx := by
  refine ⟨by decide, by decide⟩

/-- C2 (amended): a `_set_view_slice` call in which `ndisplay` or the
dims order changed clears the clipboard; a slice-key-only change leaves
it intact. -/
theorem set_view_slice_clears_clipboard_on_dims_change (s : ShapesLayer)
    (h : s.dims_ndisplay ≠ s.ndisplay_stored ∨
         s.dims_order ≠ s.display_order_stored) :
    (set_view_slice s).clipboard = none := by
  unfold set_view_slice
  dsimp only
  split_ifs <;>
    first
      | rfl
      | (exfalso; rcases h with hc | hc <;> simp_all)

/-- Witness for C2 (amended): an axis-order change clears the
clipboard. -/
theorem set_view_slice_clears_clipboard_on_dims_change_witness :
    orderChangeLayer.dims_order ≠ orderChangeLayer.display_order_stored ∧
      (set_view_slice orderChangeLayer).clipboard = none :=
  ⟨by decide, set_view_slice_clears_clipboard_on_dims_change orderChangeLayer
    (Or.inr (by decide))⟩

/-! ## Claim C5: finalizing an in-progress shape on mode transitions -/

/-- A two-point path in mid-creation (too few vertices to be a valid
path). -/
def pathInProgress : PShape :=
  { stype := ShapeType.path
    data := [[0, 0], [1, 1]]
    edge_width := 1
    z_index := 0
    displayed := [[0, 0], [1, 1]] }

/-- A layer in ADD_PATH mode in the middle of creating
`pathInProgress` (shape index 0). -/
def drawingPathLayer : ShapesLayer :=
  { baseLayer with mode := Mode.addPath
                   is_creating := true
                   moving_value := (some 0, none)
                   shapes := [pathInProgress]
                   edge_color := [[1, 1, 1, 1]]
                   face_color := [[1, 1, 1, 1]]
                   selected_data := [0]
                   mouse_drag_callbacks := ["add_path_polygon"]
                   mouse_move_callbacks := ["add_path_polygon_creating"] }

/-- C5: the transition ADD_PATH → PAN_ZOOM (neither mode is in
`{Select, Direct, VertexInsert, VertexRemove}`) does call
`_finish_drawing`, but because the mode has already been overwritten the
`self._mode == Mode.ADD_PATH` test inside `_finish_drawing` fails, and
the two-vertex in-progress path is left in the collection instead of
being removed.  The final conjunct shows the discard logic does fire
when `_finish_drawing` runs while the layer is still in ADD_PATH mode
(the explicit finish gesture), which is the behaviour the spec
describes. -/
theorem mode_exit_leaves_short_path_in_collection :
    drawingPathLayer.is_creating = true ∧
    drawingPathLayer.mode = Mode.addPath ∧
    (displayedVertsOf drawingPathLayer (some 0)).length ≤ 2 ∧
    (set_mode drawingPathLayer Mode.panZoom).shapes =
      drawingPathLayer.shapes ∧
    (set_mode drawingPathLayer Mode.panZoom).mode = Mode.panZoom ∧
    (set_mode drawingPathLayer Mode.panZoom).is_creating = false ∧
    (finish_drawing drawingPathLayer).shapes = [] := by
  refine ⟨rfl, rfl, by decide, by decide, by decide, by decide, by decide⟩

/-! ## Geometry lemmas for the interaction box -/

lemma psub_padd_padd (a b c : Pt) :
    psub (padd a c) (padd b c) = psub a b := by
  unfold psub padd
  apply Prod.ext <;> dsimp <;> ring

lemma psub_padd_cancel (a c : Pt) : psub (padd a c) c = a := by
  unfold psub padd
  apply Prod.ext <;> dsimp <;> ring

lemma padd_psub_cancel (a c : Pt) : padd (psub a c) c = a := by
  unfold psub padd
  apply Prod.ext <;> dsimp <;> ring

lemma padd_psub_self (a x : Pt) : psub (padd a x) a = x := by
  unfold psub padd
  apply Prod.ext <;> dsimp <;> ring

lemma psub_psub_cancel (a b c : Pt) :
    psub (psub a c) (psub b c) = psub a b := by
  unfold psub
  apply Prod.ext <;> dsimp <;> ring

lemma psub_ne_zero (a b : Pt) (h : a ≠ b) : psub b a ≠ ((0 : ℝ), (0 : ℝ)) := by
  intro hc
  apply h
  have h1 : b.1 - a.1 = 0 := by simpa [psub] using congrArg Prod.fst hc
  have h2 : b.2 - a.2 = 0 := by simpa [psub] using congrArg Prod.snd hc
  apply Prod.ext
  · linarith
  · linarith

lemma norm2_smul (t : ℝ) (v : Pt) : norm2 (psmul t v) = |t| * norm2 v := by
  unfold norm2 psmul
  dsimp
  rw [show (t * v.1) ^ 2 + (t * v.2) ^ 2 = t ^ 2 * (v.1 ^ 2 + v.2 ^ 2) by ring]
  rw [Real.sqrt_mul (sq_nonneg t), Real.sqrt_sq_eq_abs]

lemma norm2_pos (v : Pt) (h : v ≠ ((0 : ℝ), (0 : ℝ))) : 0 < norm2 v := by
  unfold norm2
  apply Real.sqrt_pos.mpr
  have hne : v.1 ≠ 0 ∨ v.2 ≠ 0 := by
    by_contra hc
    push_neg at hc
    exact h (Prod.ext hc.1 hc.2)
  rcases hne with h1 | h1
  · positivity
  · positivity

lemma norm2_rot2 (A : ℝ) (v : Pt) : norm2 (rot2 A v) = norm2 v := by
  unfold norm2 rot2
  dsimp
  congr 1
  linear_combination (v.1 ^ 2 + v.2 ^ 2) * Real.cos_sq_add_sin_sq A

lemma psub_rot2 (A : ℝ) (u w : Pt) :
    psub (rot2 A u) (rot2 A w) = rot2 A (psub u w) := by
  unfold psub rot2
  apply Prod.ext <;> dsimp <;> ring

lemma rot2_rot2_neg (A : ℝ) (v : Pt) : rot2 (-A) (rot2 A v) = v := by
  unfold rot2
  rw [Real.cos_neg, Real.sin_neg]
  apply Prod.ext <;> dsimp
  · linear_combination v.1 * Real.cos_sq_add_sin_sq A
  · linear_combination v.2 * Real.cos_sq_add_sin_sq A

lemma radians_neg (θ : ℝ) : radians (-θ) = -(radians θ) := by
  unfold radians
  ring

/-- After the handle re-placement the handle sits at distance `r` from
the top-center, provided they did not coincide and `0 ≤ r`. -/
lemma renormalizeHandle_dist (box : Fin 10 → Pt) (r : ℝ) (hr : 0 ≤ r)
    (hne : box boxTopCenter ≠ box boxHandle) :
    norm2 (psub (renormalizeHandle box r boxHandle)
      (renormalizeHandle box r boxTopCenter)) = r := by
  unfold renormalizeHandle
  rw [if_neg hne]
  rw [if_pos rfl, if_neg (show boxTopCenter = boxHandle → False by decide)]
  rw [padd_psub_self]
  have hvne : psub (box boxHandle) (box boxTopCenter) ≠ ((0 : ℝ), 0) :=
    psub_ne_zero _ _ hne
  have hL : 0 < norm2 (psub (box boxHandle) (box boxTopCenter)) :=
    norm2_pos _ hvne
  rw [norm2_smul]
  rw [abs_of_nonneg (div_nonneg hr hL.le)]
  field_simp

/-! ## Claim C6: rotation round trip -/

/-- C6: rotating the interaction box by `θ` degrees about any center and
then by `−θ` about the same center restores every one of its 10 points
exactly (over `ℝ`; the float implementation realises this to within
epsilon). -/
theorem rotate_box_roundtrip (s : BoxState) (θ : ℝ) (c : Pt) (i : Fin 10) :
    (rotate_box (rotate_box s θ c) (-θ) c).selected_box i =
      s.selected_box i := by
  unfold rotate_box
  dsimp only
  rw [psub_padd_cancel, radians_neg, rot2_rot2_neg, padd_psub_cancel]

/-! ## Claim C7: the rotation-handle offset length -/

/-- A box whose handle offset length is twice the nominal handle
length: top-center at the origin, handle at `(0, 40)`, with
`rotation_handle_length * scale_factor = 20`. -/
noncomputable def stretchedHandleBox : BoxState :=
  { selected_box := fun i =>
      if i = boxHandle then ((0 : ℝ), (40 : ℝ)) else ((0 : ℝ), (0 : ℝ))
    rotation_handle_length := 20
    scale_factor := 1 }

lemma stretchedHandleBox_handle :
    stretchedHandleBox.selected_box boxHandle = ((0 : ℝ), (40 : ℝ)) := by
  unfold stretchedHandleBox
  simp

lemma stretchedHandleBox_topCenter :
    stretchedHandleBox.selected_box boxTopCenter = ((0 : ℝ), (0 : ℝ)) := by
  have h : boxTopCenter ≠ boxHandle := by decide
  simp [stretchedHandleBox, h]

lemma rot2_zero_radians (v : Pt) : rot2 (radians 0) v = v := by
  unfold rot2 radians
  rw [zero_mul, Real.cos_zero, Real.sin_zero]
  apply Prod.ext <;> dsimp <;> ring

/-- Counterexample to C7 as stated: `_rotate_box` never re-places the
handle, so a box whose handle offset is longer than
`_rotation_handle_length * scale_factor` keeps its length through a
rotation (here: rotation by 0° of a box with offset length 40 ≠ 20). -/
theorem rotate_box_does_not_renormalize_handle :
    stretchedHandleBox.selected_box boxHandle ≠
      stretchedHandleBox.selected_box boxTopCenter ∧
      handleDist (rotate_box stretchedHandleBox 0 ((0 : ℝ), (0 : ℝ))) ≠
        handleR stretchedHandleBox := by
  constructor
  · rw [stretchedHandleBox_handle, stretchedHandleBox_topCenter]
    intro hc
    have h40 := congrArg Prod.snd hc
    norm_num at h40
  · unfold handleDist rotate_box
    dsimp only
    rw [rot2_zero_radians, rot2_zero_radians, psub_padd_padd,
      psub_psub_cancel, stretchedHandleBox_handle,
      stretchedHandleBox_topCenter]
    have hd : norm2 (psub ((0 : ℝ), (40 : ℝ)) ((0 : ℝ), (0 : ℝ))) = 40 := by
      unfold norm2 psub
      dsimp
      rw [show ((0 : ℝ) - 0) ^ 2 + ((40 : ℝ) - 0) ^ 2 = 40 ^ 2 by ring]
      rw [Real.sqrt_sq (by norm_num : (0 : ℝ) ≤ 40)]
    rw [hd]
    unfold handleR stretchedHandleBox
    norm_num

/-- C7 (amended): `_scale_box` and `_transform_box` re-place the handle
at distance `rotation_handle_length * scale_factor` from the top-center
whenever the transformed handle and top-center are distinct; `_rotate_box`
does not touch the handle but preserves the offset length exactly, so a
box whose handle was placed by `interaction_box` (offset length exactly
`r`) keeps a constant screen-space handle length through rotations — in
particular through a 90° handle drag. -/
theorem transform_box_handle_length (s : BoxState) (hr : 0 ≤ handleR s) :
    (∀ sc c : Pt,
        pmul (psub (s.selected_box boxTopCenter) c) sc ≠
          pmul (psub (s.selected_box boxHandle) c) sc →
        handleDist (scale_box s sc c) = handleR s) ∧
    (∀ (m : Mat2) (c : Pt),
        apply2x2 m (psub (s.selected_box boxTopCenter) c) ≠
          apply2x2 m (psub (s.selected_box boxHandle) c) →
        handleDist (transform_box s m c) = handleR s) ∧
    (∀ (a : ℝ) (c : Pt), handleDist (rotate_box s a c) = handleDist s) := by
  refine ⟨?_, ?_, ?_⟩
  · intro sc c hne
    unfold handleDist scale_box
    dsimp only
    rw [psub_padd_padd]
    exact renormalizeHandle_dist _ _ hr hne
  · intro m c hne
    unfold handleDist transform_box
    dsimp only
    rw [psub_padd_padd]
    exact renormalizeHandle_dist _ _ hr hne
  · intro a c
    unfold handleDist rotate_box
    dsimp only
    rw [psub_padd_padd, psub_rot2, norm2_rot2, psub_psub_cancel]

/-- A box with the handle one unit above the top-center. -/
noncomputable def unitHandleBox : BoxState :=
  { selected_box := fun i =>
      if i = boxHandle then ((0 : ℝ), (1 : ℝ)) else ((0 : ℝ), (0 : ℝ))
    rotation_handle_length := 20
    scale_factor := 1 }

/-- Witness for C7 (amended): scaling `unitHandleBox` by `(2, 2)` about
the origin puts the handle exactly 20 screen units from the
top-center. -/
theorem transform_box_handle_length_witness :
    0 ≤ handleR unitHandleBox ∧
      handleDist (scale_box unitHandleBox ((2 : ℝ), (2 : ℝ))
        ((0 : ℝ), (0 : ℝ))) = handleR unitHandleBox := by
  have hr : 0 ≤ handleR unitHandleBox := by
    unfold handleR unitHandleBox
    norm_num
  refine ⟨hr, ?_⟩
  refine (transform_box_handle_length unitHandleBox hr).1
    ((2 : ℝ), (2 : ℝ)) ((0 : ℝ), (0 : ℝ)) ?_
  have hTC : unitHandleBox.selected_box boxTopCenter = ((0 : ℝ), (0 : ℝ)) := by
    have h : boxTopCenter ≠ boxHandle := by decide
    simp [unitHandleBox, h]
  have hH : unitHandleBox.selected_box boxHandle = ((0 : ℝ), (1 : ℝ)) := by
    simp [unitHandleBox]
  rw [hTC, hH]
  intro hc
  have h2 := congrArg Prod.snd hc
  simp [pmul, psub] at h2

/-! ## Lemmas about the cycle map -/

/-- The unseen property values, in the order `_map_color` collects
them. -/
def missingOf (s : ColorState) : List Int :=
  (propValues s).filter (fun v => (amlookup s.cycle_map v).isNone)

lemma amlookup_append_some (m m' : List (Int × CColor)) (v : Int)
    (c : CColor) (h : amlookup m v = some c) :
    amlookup (m ++ m') v = some c := by
  induction m with
  | nil => simp [amlookup] at h
  | cons p t ih =>
    rw [List.cons_append, amlookup]
    rw [amlookup] at h
    by_cases hp : p.1 = v
    · rw [if_pos hp] at h ⊢
      exact h
    · rw [if_neg hp] at h ⊢
      exact ih h

lemma amlookup_append_none (m m' : List (Int × CColor)) (v : Int)
    (h : amlookup m v = none) :
    amlookup (m ++ m') v = amlookup m' v := by
  induction m with
  | nil => rfl
  | cons p t ih =>
    rw [List.cons_append, amlookup]
    rw [amlookup] at h
    by_cases hp : p.1 = v
    · rw [if_pos hp] at h
      exact absurd h (by simp)
    · rw [if_neg hp] at h ⊢
      exact ih h

lemma mem_insertSorted (x a : Int) (t : List Int) :
    a ∈ insertSorted x t ↔ a = x ∨ a ∈ t := by
  induction t with
  | nil => simp [insertSorted]
  | cons y t ih =>
    rw [insertSorted]
    by_cases h1 : x < y
    · rw [if_pos h1]
      simp
    · rw [if_neg h1]
      by_cases h2 : x = y
      · rw [if_pos h2]
        subst h2
        simp
      · rw [if_neg h2]
        simp [ih]
        tauto

lemma mem_npUnique (a : Int) (l : List Int) :
    a ∈ npUnique l ↔ a ∈ l := by
  induction l with
  | nil => simp [npUnique]
  | cons x t ih =>
    rw [npUnique, List.foldr_cons]
    rw [npUnique] at ih
    rw [mem_insertSorted]
    simp [ih]

lemma amlookup_zip_isSome (u : List Int) (cs : List CColor) (v : Int)
    (hv : v ∈ u) (hlen : u.length ≤ cs.length) :
    (amlookup (u.zip cs) v).isSome = true := by
  induction u generalizing cs with
  | nil => simp at hv
  | cons x t ih =>
    cases cs with
    | nil => simp at hlen
    | cons c cs' =>
      rw [List.zip_cons_cons, amlookup]
      by_cases hx : x = v
      · rw [if_pos hx]
        rfl
      · rw [if_neg hx]
        rcases List.mem_cons.mp hv with h | h
        · exact absurd h.symm hx
        · refine ih cs' h ?_
          simp only [List.length_cons] at hlen
          omega

lemma map_color_false_cycle_map (s : ColorState)
    (hm : s.color_mode = ColorMode.cycle) :
    (map_color false s).1.cycle_map =
      s.cycle_map ++ (npUnique (missingOf s)).zip
        (drawColors s (npUnique (missingOf s)).length) := by
  unfold map_color
  rw [hm]
  dsimp only
  rw [if_neg Bool.false_ne_true]
  split
  · next hlen =>
    have hempty : missingOf s = [] := by
      have := List.length_eq_zero.mp hlen
      simpa [missingOf] using this
    rw [hempty]
    simp [npUnique]
  · rfl

lemma map_color_false_cycle_pos (s : ColorState)
    (hm : s.color_mode = ColorMode.cycle) :
    (map_color false s).1.cycle_pos =
      s.cycle_pos + (npUnique (missingOf s)).length := by
  unfold map_color
  rw [hm]
  dsimp only
  rw [if_neg Bool.false_ne_true]
  split
  · next hlen =>
    have hempty : missingOf s = [] := by
      have := List.length_eq_zero.mp hlen
      simpa [missingOf] using this
    rw [hempty]
    simp [npUnique]
  · rfl

/-! ## Claim C8: CYCLE color-map persistence -/

/-- Scenario B of the spec: four shapes with `size = [1, 2, 1, 2]`, face
color in CYCLE mode over `size`, a fresh map and a 3-color cycle
(opaque color ids 10, 20, 30). -/
def scenarioB : ColorState :=
  { color_mode := ColorMode.cycle
    color_property := "size"
    properties := [("size", { values := [1, 2, 1, 2], numeric := true })]
    current_properties := [("size", 1)]
    current_color := 0
    cycle_colors := [10, 20, 30]
    cycle_pos := 0
    cycle_map := []
    contrast_limits := none
    update_properties := true }

/-- Scenario B after the CYCLE colors were computed, about to add a
fifth shape with `size = 3`. -/
def scenarioBAdded : ColorState :=
  { (map_color false scenarioB).1 with
      properties := [("size", { values := [1, 2, 1, 2, 3], numeric := true })]
      current_properties := [("size", 3)] }

/-- C8: in CYCLE mode, `_map_color(update_color_mapping=False)` (i) keeps
the memoized color of every value already in the map, (ii) ends with
every current property value memoized, (iii) consumes exactly one cycle
color per distinct previously-unseen value, and with
`update_color_mapping=True` (iv) regenerates the map from scratch over
the sorted distinct property values; (v) Scenario B: `size=[1,2,1,2]`
maps 1 ↦ color 0 and 2 ↦ color 1 (shape colors `[c0, c1, c0, c1]`), and
adding a fifth shape with `size=3` consumes color 2 and memoizes it. -/
theorem cycle_color_map_persistence :
    (∀ (s : ColorState) (v : Int) (c : CColor),
        s.color_mode = ColorMode.cycle →
        amlookup s.cycle_map v = some c →
        amlookup ((map_color false s).1.cycle_map) v = some c) ∧
    (∀ (s : ColorState) (v : Int),
        s.color_mode = ColorMode.cycle → v ∈ propValues s →
        (amlookup ((map_color false s).1.cycle_map) v).isSome = true) ∧
    (∀ s : ColorState, s.color_mode = ColorMode.cycle →
        (map_color false s).1.cycle_pos =
          s.cycle_pos + (npUnique (missingOf s)).length) ∧
    (∀ s : ColorState, s.color_mode = ColorMode.cycle →
        (map_color true s).1.cycle_map =
          (npUnique (propValues s)).zip
            (drawColors s (npUnique (propValues s)).length)) ∧
    ((map_color false scenarioB).2 = [10, 20, 10, 20] ∧
      (map_color false scenarioB).1.cycle_map = [(1, 10), (2, 20)] ∧
      (get_new_shape_color 1 scenarioBAdded).2 = [30] ∧
      (get_new_shape_color 1 scenarioBAdded).1.cycle_map =
        [(1, 10), (2, 20), (3, 30)]) := by
  refine ⟨?_, ?_, ?_, ?_, by decide, by decide, by decide, by decide⟩
  · intro s v c hm h
    rw [map_color_false_cycle_map s hm]
    exact amlookup_append_some _ _ _ _ h
  · intro s v hm hv
    rw [map_color_false_cycle_map s hm]
    cases hl : amlookup s.cycle_map v with
    | some c =>
      rw [amlookup_append_some _ _ _ _ hl]
      rfl
    | none =>
      rw [amlookup_append_none _ _ _ hl]
      apply amlookup_zip_isSome
      · rw [mem_npUnique]
        rw [missingOf, List.mem_filter]
        exact ⟨hv, by rw [hl]; rfl⟩
      · simp [drawColors]
  · intro s hm
    exact map_color_false_cycle_pos s hm
  · intro s hm
    unfold map_color
    rw [hm]
    rfl

/-- A CYCLE state that has already memoized `5 ↦ 99`, with a further
unseen value `7` among the property values. -/
def memoState : ColorState :=
  { color_mode := ColorMode.cycle
    color_property := "size"
    properties := [("size", { values := [5, 7], numeric := true })]
    current_properties := [("size", 5)]
    current_color := 0
    cycle_colors := [10, 20, 30]
    cycle_pos := 1
    cycle_map := [(5, 99)]
    contrast_limits := none
    update_properties := true }

/-- Witness for C8: the memoized color of value 5 survives a refresh
that also maps the new value 7. -/
theorem cycle_color_map_persistence_witness :
    memoState.color_mode = ColorMode.cycle ∧
      amlookup memoState.cycle_map 5 = some 99 ∧
      amlookup ((map_color false memoState).1.cycle_map) 5 = some 99 :=
  ⟨rfl, by decide,
    cycle_color_map_persistence.1 memoState 5 99 rfl (by decide)⟩

/-! ## Claim C9: color-mode switching -/

/-- A CYCLE state with a populated `value -> color` map. -/
def directSwitchState : ColorState :=
  { color_mode := ColorMode.cycle
    color_property := "size"
    properties := [("size", { values := [1, 2], numeric := true })]
    current_properties := [("size", 1)]
    current_color := 0
    cycle_colors := [10, 20]
    cycle_pos := 2
    cycle_map := [(1, 10), (2, 20)]
    contrast_limits := none
    update_properties := true }

/-- Counterexample to C9 as stated: switching to DIRECT succeeds but
does *not* discard the stored `value -> color` map — the map is kept
(which is what lets a later switch back to CYCLE reuse the memoized
colors). -/
theorem direct_switch_keeps_cycle_map :
    (set_color_mode directSwitchState ColorMode.direct).2 = none ∧
      (set_color_mode directSwitchState ColorMode.direct).1.color_mode =
        ColorMode.direct ∧
      (set_color_mode directSwitchState ColorMode.direct).1.cycle_map =
        [(1, 10), (2, 20)] ∧
      ([(1, 10), (2, 20)] : List (Int × CColor)) ≠ [] := by
  refine ⟨rfl, rfl, rfl, by decide⟩

/-- C9 (amended): switching to DIRECT always succeeds and leaves the
stored `value -> color` map intact; switching to CYCLE or COLORMAP with
no property available (none chosen, none existing) fails with
`NoPropertiesAvailable`; switching to COLORMAP with a non-numeric chosen
property fails with `NonNumericProperty`; and every failed switch leaves
the color mode unchanged. -/
theorem set_color_mode_spec :
    (∀ s : ColorState,
        (set_color_mode s ColorMode.direct).2 = none ∧
        (set_color_mode s ColorMode.direct).1.color_mode =
          ColorMode.direct ∧
        (set_color_mode s ColorMode.direct).1.cycle_map = s.cycle_map) ∧
    (∀ (s : ColorState) (m : ColorMode),
        m ≠ ColorMode.direct → s.color_property = "" → s.properties = [] →
        set_color_mode s m = (s, some ColorErr.noPropertiesAvailable)) ∧
    (∀ (s : ColorState) (kv : String × PropColumn),
        s.color_property ≠ "" →
        s.properties.find? (fun p => p.1 = s.color_property) = some kv →
        kv.2.numeric = false →
        set_color_mode s ColorMode.colormap =
          (s, some ColorErr.nonNumericProperty)) ∧
    (∀ (s : ColorState) (m : ColorMode) (e : ColorErr),
        (set_color_mode s m).2 = some e →
        (set_color_mode s m).1.color_mode = s.color_mode) := by
  refine ⟨?_, ?_, ?_, ?_⟩
  · intro s
    exact ⟨rfl, rfl, rfl⟩
  · intro s m hm h1 h2
    cases m with
    | direct => exact absurd rfl hm
    | cycle => simp [set_color_mode, h1, h2]
    | colormap => simp [set_color_mode, h1, h2]
  · intro s kv h1 hfind hnum
    simp [set_color_mode, h1, hfind, hnum]
  · intro s m e h
    cases m with
    | direct => simp [set_color_mode] at h
    | cycle =>
      by_cases h1 : s.color_property = ""
      · cases hp : s.properties.head? with
        | none => simp [set_color_mode, h1, hp]
        | some kv => simp [set_color_mode, h1, hp] at h
      · simp [set_color_mode, h1] at h
    | colormap =>
      by_cases h1 : s.color_property = ""
      · cases hp : s.properties.head? with
        | none => simp [set_color_mode, h1, hp]
        | some kv =>
          cases hfind : ({ s with color_property := kv.1 } :
              ColorState).properties.find?
                (fun p => p.1 = ({ s with color_property := kv.1 } :
                  ColorState).color_property) with
          | none => simp [set_color_mode, h1, hp, hfind]
          | some kv2 =>
            by_cases hnum : kv2.2.numeric = false
            · simp [set_color_mode, h1, hp, hfind, hnum]
            · simp [set_color_mode, h1, hp, hfind, hnum] at h
      · cases hfind : s.properties.find? (fun p => p.1 = s.color_property) with
        | none => simp [set_color_mode, h1, hfind]
        | some kv2 =>
          by_cases hnum : kv2.2.numeric = false
          · simp [set_color_mode, h1, hfind, hnum]
          · simp [set_color_mode, h1, hfind, hnum] at h

/-- A state with no properties and no chosen color property. -/
def emptyPropsState : ColorState :=
  { color_mode := ColorMode.direct
    color_property := ""
    properties := []
    current_properties := []
    current_color := 0
    cycle_colors := [10, 20]
    cycle_pos := 0
    cycle_map := []
    contrast_limits := none
    update_properties := true }

/-- Witness for C9 (amended): switching to CYCLE with no properties
fails with `NoPropertiesAvailable` and leaves the state untouched. -/
theorem set_color_mode_spec_witness :
    ColorMode.cycle ≠ ColorMode.direct ∧
      emptyPropsState.color_property = "" ∧
      emptyPropsState.properties = [] ∧
      set_color_mode emptyPropsState ColorMode.cycle =
        (emptyPropsState, some ColorErr.noPropertiesAvailable) :=
  ⟨by decide, rfl, rfl,
    set_color_mode_spec.2.1 emptyPropsState ColorMode.cycle
      (by decide) rfl rfl⟩

/-! ## Lemmas about paste -/

/-- The shape actually inserted by the paste loop: the shifted deep copy
with its displayed projection recomputed by `ShapeList.add`. -/
def pastedShape (s : ShapesLayer) (cb : ClipboardData) (sh : PShape) :
    PShape :=
  { shiftShape s cb sh with
      displayed := projectData s (shiftShape s cb sh).data }

lemma pasteLoop_eq (cb : ClipboardData) :
    ∀ (l : List PShape) (i : Nat) (acc : ShapesLayer),
    pasteLoop cb i l acc =
      { acc with
          shapes := acc.shapes ++ l.map (pastedShape acc cb)
          edge_color := acc.edge_color ++
            (List.range' i l.length).map (fun j => cb.edge_color.getD j [])
          face_color := acc.face_color ++
            (List.range' i l.length).map (fun j => cb.face_color.getD j []) }
  | [], i, acc => by
    simp [pasteLoop]
  | sh :: rest, i, acc => by
    rw [pasteLoop, pasteLoop_eq cb rest (i + 1)]
    have hA : shapeListAdd acc (shiftShape acc cb sh)
        (cb.edge_color.getD i []) (cb.face_color.getD i []) =
        { acc with
            shapes := acc.shapes ++ [pastedShape acc cb sh]
            edge_color := acc.edge_color ++ [cb.edge_color.getD i []]
            face_color := acc.face_color ++ [cb.face_color.getD i []] } := rfl
    rw [hA]
    have hcong : pastedShape
        { acc with
            shapes := acc.shapes ++ [pastedShape acc cb sh]
            edge_color := acc.edge_color ++ [cb.edge_color.getD i []]
            face_color := acc.face_color ++ [cb.face_color.getD i []] } cb =
        pastedShape acc cb := rfl
    rw [hcong]
    simp [List.range'_succ]

lemma set_view_slice_consistent (s : ShapesLayer)
    (h1 : s.dims_ndisplay = s.ndisplay_stored)
    (h2 : s.dims_order = s.display_order_stored)
    (h3 : sliceKeyOf s = s.dv_slice_key) :
    set_view_slice s = s := by
  unfold set_view_slice
  dsimp only
  rw [if_neg (show ¬s.dims_ndisplay ≠ s.ndisplay_stored from fun hc => hc h1)]
  rw [if_neg (show ¬s.dims_order ≠ s.display_order_stored from fun hc => hc h2)]
  rw [if_neg (show ¬sliceKeyOf s ≠ s.dv_slice_key from fun hc => hc h3)]
  rw [h3]

lemma refreshModel_consistent (s : ShapesLayer)
    (h1 : s.dims_ndisplay = s.ndisplay_stored)
    (h2 : s.dims_order = s.display_order_stored)
    (h3 : sliceKeyOf s = s.dv_slice_key) :
    refreshModel s = s := by
  unfold refreshModel
  split
  · exact set_view_slice_consistent s h1 h2 h3
  · rfl

lemma updateZIndex_append (A : List PShape) (l : List PShape) (z : Int) :
    updateZIndex (A ++ l) A.length z = A ++ updateZIndex l 0 z := by
  induction A with
  | nil => rfl
  | cons a t ih =>
    show listModify (a :: (t ++ l)) (t.length + 1) _ = _
    rw [listModify]
    unfold updateZIndex at ih
    rw [ih]
    rfl

lemma foldl_updateZ (z : Int) :
    ∀ (B A : List PShape),
    (List.range' A.length B.length).foldl
      (fun acc i => updateZIndex acc i z) (A ++ B) =
      A ++ B.map (fun p => { p with z_index := z })
  | [], A => by simp
  | b :: B', A => by
    rw [show (b :: B').length = B'.length + 1 from rfl, List.range'_succ,
      List.foldl_cons]
    have h1 : updateZIndex (A ++ b :: B') A.length z =
        A ++ ({ b with z_index := z } :: B') := by
      rw [updateZIndex_append]
      rfl
    rw [h1]
    have h2 := foldl_updateZ z B' (A ++ [{ b with z_index := z }])
    simp only [List.length_append, List.length_singleton,
      List.append_assoc, List.singleton_append, List.map_cons] at h2 ⊢
    exact h2

lemma init_le_foldl_max (t : List Int) : ∀ init : Int,
    init ≤ t.foldl max init := by
  induction t with
  | nil => intro init; exact le_refl _
  | cons a t ih =>
    intro init
    rw [List.foldl_cons]
    exact le_trans (le_max_left init a) (ih (max init a))

lemma mem_le_foldl_max (t : List Int) (x : Int) (h : x ∈ t) :
    ∀ init : Int, x ≤ t.foldl max init := by
  induction t with
  | nil => simp at h
  | cons a t ih =>
    intro init
    rw [List.foldl_cons]
    rcases List.mem_cons.mp h with hx | hx
    · subst hx
      exact le_trans (le_max_right init x) (init_le_foldl_max t _)
    · exact ih hx _

lemma le_zIndexMax (l : List Int) (x : Int) (h : x ∈ l) : x ≤ zIndexMax l := by
  cases l with
  | nil => simp at h
  | cons a t =>
    rw [zIndexMax]
    rcases List.mem_cons.mp h with hx | hx
    · subst hx
      exact init_le_foldl_max t x
    · exact mem_le_foldl_max t x hx a

/-! ## Claim C3: paste -/

lemma foldl_updateZ_of_length (z : Int) (A B : List PShape) (n : Nat)
    (hn : B.length = n) :
    (List.range' A.length n).foldl
      (fun acc i => updateZIndex acc i z) (A ++ B) =
      A ++ B.map (fun p => { p with z_index := z }) := by
  subst hn
  exact foldl_updateZ z B A

/-- The z-index `move_to_front` assigns to the pasted shapes: one above
the maximum over the collection after insertion. -/
def pasteNewZ (s : ShapesLayer) (cb : ClipboardData) : Int :=
  zIndexMax ((s.shapes ++ cb.data.map (pastedShape s cb)).map
    PShape.z_index) + 1

/-- C3: pasting a non-empty clipboard in a slice-consistent state
(i) selects exactly the indices of the newly inserted shapes,
(ii) appends one deep copy per snapshotted shape, all raised to the same
top z-index, (iii) which is strictly above every pre-existing shape's
z-index, and (iv) each inserted copy's data is the snapshot's data with
every coordinate on a non-displayed axis shifted by
`current dims index − snapshot dims index` on that axis (the z-index of
the copy itself is unchanged by the shift; the raise happens in
`move_to_front`). -/
theorem paste_data_spec (s : ShapesLayer) (cb : ClipboardData)
    (hcb : s.clipboard = some cb) (hne : cb.data ≠ [])
    (h1 : s.dims_ndisplay = s.ndisplay_stored)
    (h2 : s.dims_order = s.display_order_stored)
    (h3 : sliceKeyOf s = s.dv_slice_key) :
    (paste_data s).selected_data =
      List.range' s.shapes.length cb.data.length ∧
    (paste_data s).shapes = s.shapes ++ cb.data.map
      (fun sh => { pastedShape s cb sh with z_index := pasteNewZ s cb }) ∧
    (∀ sh ∈ s.shapes, sh.z_index < pasteNewZ s cb) ∧
    (∀ sh : PShape,
      (pastedShape s cb sh).data = sh.data.map (fun v =>
        v.mapIdx (fun i x =>
          if i ∈ dimsNotDisplayed s then
            x + ((s.dims_indices.getD i 0 - cb.indices.getD i 0 : Int) : ℚ)
          else x)) ∧
      (pastedShape s cb sh).z_index = sh.z_index) := by
  have hn0 : cb.data.length ≠ 0 := fun hc => hne (List.length_eq_zero.mp hc)
  have hps : paste_data s =
      { s with
          properties := appendProps s.properties cb.properties
          selected_data := List.range' s.shapes.length cb.data.length
          shapes := s.shapes ++ cb.data.map
            (fun sh => { pastedShape s cb sh with z_index := pasteNewZ s cb })
          edge_color := s.edge_color ++
            (List.range' 0 cb.data.length).map
              (fun j => cb.edge_color.getD j [])
          face_color := s.face_color ++
            (List.range' 0 cb.data.length).map
              (fun j => cb.face_color.getD j []) } := by
    unfold paste_data
    rw [hcb]
    dsimp only
    rw [pasteLoop_eq]
    dsimp only
    unfold move_to_front
    dsimp only
    rw [if_neg (show ¬(List.range' s.shapes.length cb.data.length).length = 0
      by simpa [List.length_range'] using hn0)]
    rw [foldl_updateZ_of_length _ s.shapes _ cb.data.length
      (List.length_map _ _)]
    rw [refreshModel_consistent]
    · simp only [List.map_map]
      rfl
    · exact h1
    · exact h2
    · exact h3
  refine ⟨?_, ?_, ?_, ?_⟩
  · rw [hps]
  · rw [hps]
  · intro sh hsh
    have hmem : sh.z_index ∈ (s.shapes ++ cb.data.map (pastedShape s cb)).map
        PShape.z_index :=
      List.mem_map_of_mem _ (List.mem_append_left _ hsh)
    have := le_zIndexMax _ _ hmem
    unfold pasteNewZ
    omega
  · intro sh
    exact ⟨rfl, rfl⟩

/-- The one snapshotted shape of Scenario D, copied while viewing plane
`z = 3`. -/
def snapShape : PShape :=
  { stype := ShapeType.polygon
    data := [[3, 0, 0], [3, 0, 2], [3, 2, 2]]
    edge_width := 1
    z_index := 0
    displayed := [[0, 0], [0, 2], [2, 2]] }

/-- Scenario D's clipboard: one shape snapshotted at `z = 3`. -/
def scenarioDClipboard : ClipboardData :=
  { data := [snapShape]
    edge_color := [[1, 1, 1, 1]]
    face_color := [[1, 1, 1, 1]]
    properties := []
    indices := [3, 0, 0] }

/-- A shape already present on plane `z = 7`, at z-index 5. -/
def existingShape : PShape :=
  { stype := ShapeType.rectangle
    data := [[7, 0, 0], [7, 0, 1], [7, 1, 1], [7, 1, 0]]
    edge_width := 1
    z_index := 5
    displayed := [[0, 0], [0, 1], [1, 1], [1, 0]] }

/-- Scenario D's layer: a 3-D layer now viewing plane `z = 7`, holding
`existingShape` and the clipboard snapshotted at `z = 3`. -/
def scenarioDLayer : ShapesLayer :=
  { baseLayer with
      dims_ndim := 3
      dims_order := [0, 1, 2]
      dims_indices := [7, 0, 0]
      display_order_stored := [0, 1, 2]
      dv_order := [0, 1, 2]
      dv_slice_key := [7]
      shapes := [existingShape]
      edge_color := [[0, 0, 0, 1]]
      face_color := [[0, 0, 0, 1]]
      clipboard := some scenarioDClipboard }

/-- The one rational sum Scenario D's shift produces
(`3 + (7 − 3) = 7` on the non-displayed axis). -/
lemma scenarioD_shift_eval : (3 : ℚ) + ((7 - 3 : Int) : ℚ) = 7 := by
  norm_num

/-- Witness for C3 (Scenario D): pasting at `z = 7` a shape copied at
`z = 3` yields exactly one new shape whose non-displayed coordinate is
the original plus 4, selected alone, raised above the existing shape's
z-index (5 → the pasted shape gets 6). -/
theorem paste_data_spec_witness :
    scenarioDClipboard.data ≠ [] ∧
      (paste_data scenarioDLayer).selected_data = [1] ∧
      (∀ sh ∈ scenarioDLayer.shapes,
        sh.z_index < pasteNewZ scenarioDLayer scenarioDClipboard) ∧
      (paste_data scenarioDLayer).shapes.map PShape.data =
        [[[7, 0, 0], [7, 0, 1], [7, 1, 1], [7, 1, 0]],
         [[7, 0, 0], [7, 0, 2], [7, 2, 2]]] ∧
      (paste_data scenarioDLayer).shapes.map PShape.z_index = [5, 6] := by
  have h := paste_data_spec scenarioDLayer scenarioDClipboard rfl
    (by decide) rfl rfl (by decide)
  refine ⟨by decide, ?_, h.2.2.1, ?_, ?_⟩
  · rw [h.1]
    decide
  · rw [h.2.1]
    simp [scenarioDLayer, baseLayer, existingShape, snapShape,
      scenarioDClipboard, pastedShape, shiftShape, projectData,
      dimsNotDisplayed, dimsDisplayed, List.getD, scenarioD_shift_eval]
  · rw [h.2.1]
    simp [scenarioDLayer, baseLayer, existingShape, snapShape,
      scenarioDClipboard, pastedShape, shiftShape, pasteNewZ, zIndexMax,
      projectData, dimsNotDisplayed, dimsDisplayed, List.getD]

end NapariShapes
